import Mathlib

/-!
Verification of the medical-lab access/lifecycle core
(`src/medical_lab`, `src/users`): shallow embedding of the role
resolution, queryset scoping, patient provisioning, analysis status
lifecycle, and patient validation logic, with theorems checking the
specification's claims against the embedded code.
-/

namespace MedLab

/-! ## Accounts and roles (`src/users/models.py`) -/

/-- An account (`users.models.User`): identity, auth state, the
role-determining flags, and the profile fields the provisioning logic
reads.  Optional model fields are `Option`; blank `CharField`s are
strings that may be `""`. `birth_date` is kept in its ISO string form
here because the provisioning code passes it through verbatim
(`user.birth_date or '2000-01-01'`). -/
structure UserRec where
  id : Nat
  is_authenticated : Bool
  is_superuser : Bool
  groups : List String
  last_name : String
  first_name : String
  birth_date : Option String
  gender : String
  phone : Option String
  email : Option String
deriving Repr, DecidableEq

/-- Property `User.is_administrator`: member of `administrators` or superuser. -/
def UserRec.is_administrator (u : UserRec) : Bool :=
  u.groups.contains "administrators" || u.is_superuser

/-- Property `User.is_moderator`: member of `moderators`. -/
def UserRec.is_moderator (u : UserRec) : Bool :=
  u.groups.contains "moderators"

/-- Property `User.is_regular_user`: neither administrator nor moderator. -/
def UserRec.is_regular_user (u : UserRec) : Bool :=
  !(u.is_administrator || u.is_moderator)

/-! ## Patients and analyses (`src/medical_lab/models.py`) -/

/-- A persisted `Patient` row, with the fields the embedded operations
read.  `created_by` holds the owning account's id. -/
structure PatientRec where
  id : Nat
  last_name : String
  first_name : String
  birth_date : String
  gender : String
  phone : Option String
  email : Option String
  created_by : Nat
deriving Repr, DecidableEq

/-- Keys of `Analysis.STATUS_CHOICES`. -/
def STATUS_CHOICES : List String :=
  ["registered", "in_progress", "completed", "cancelled"]

/-- A persisted `Analysis` row: its patient, status string and
completion timestamp (`none` = SQL NULL).  Timestamps are abstract
naturals supplied at each save (`timezone.now()`). -/
structure AnalysisRec where
  pk : Nat
  patientId : Nat
  status : String
  completion_date : Option Nat
deriving Repr, DecidableEq

/-- A freshly created analysis: default status `registered`,
no completion date. -/
def AnalysisRec.new (pk patientId : Nat) : AnalysisRec :=
  ⟨pk, patientId, "registered", none⟩

/-- Modelled from the spec: `Analysis.send_completion_email` is called
by the `pre_save` signal handler and by the test-suite, but its body is
not among the embedded sources; per the spec it emits one completion
notification addressed to the Patient's contact email (the tests assert
`mail.outbox[0].to == [patient.email]`).  A notification is modelled by
its recipient (`none` when the patient has no email on file). -/
def send_completion_email (p : PatientRec) : Option String := p.email

/-- Method `Analysis.save` (models.py): if the status is `completed` and no
completion date is set, stamp it with the current time, then persist. -/
def Analysis_model_save (now : Nat) (a : AnalysisRec) : AnalysisRec :=
  if a.status = "completed" ∧ a.completion_date = none then
    { a with completion_date := some now }
  else a

/-- The full save path of an existing or new `Analysis` row: first the
`pre_save` signal `handle_analysis_status_change` (signals.py) runs
against the old DB row (`none` when the instance has no pk yet), then
`Analysis.save` runs.  Returns the persisted row and the list of
notification recipients emitted during the save. -/
def analysis_full_save (p : PatientRec) (dbOld : Option AnalysisRec)
    (inst : AnalysisRec) (now : Nat) : AnalysisRec × List (Option String) :=
  match dbOld with
  | none => (Analysis_model_save now inst, [])
  | some old =>
    if old.status ≠ "completed" ∧ inst.status = "completed" then
      let inst2 := if inst.completion_date = none then
        { inst with completion_date := some now } else inst
      (Analysis_model_save now inst2, [send_completion_email p])
    else (Analysis_model_save now inst, [])

/-- Outcome of the `set_status` endpoint: a 400 error response, or the
saved analysis together with the notifications emitted. -/
inductive SetStatusResult where
  | error (msg : String)
  | ok (a : AnalysisRec) (mails : List (Option String))
deriving Repr, DecidableEq

/-- Action `AnalysisViewSet.set_status` (views.py): reject a status outside
`STATUS_CHOICES` with a 400 and no state change; otherwise assign the
status and run the full save path against the current DB row. -/
def set_status (p : PatientRec) (a : AnalysisRec) (new_status : String)
    (now : Nat) : SetStatusResult :=
  if new_status ∈ STATUS_CHOICES then
    let r := analysis_full_save p (some a) { a with status := new_status } now
    .ok r.1 r.2
  else .error "Неверный статус"

/-- The DB row after a `set_status` call: unchanged on an error
response, the saved row otherwise. -/
def state_after_set_status (p : PatientRec) (a : AnalysisRec) (s : String)
    (now : Nat) : AnalysisRec :=
  match set_status p a s now with
  | .error _ => a
  | .ok a2 _ => a2

/-- Notifications emitted by one `set_status` call. -/
def mails_of (r : SetStatusResult) : List (Option String) :=
  match r with
  | .error _ => []
  | .ok _ m => m

/-- Run a sequence of `set_status` calls `(requested status, now)`
against an analysis row, returning the final row. -/
def run_set_status (p : PatientRec) (a : AnalysisRec) :
    List (String × Nat) → AnalysisRec
  | [] => a
  | (s, t) :: rest => run_set_status p (state_after_set_status p a s t) rest

/-- All notifications emitted over a sequence of `set_status` calls. -/
def mails_in_run (p : PatientRec) (a : AnalysisRec) :
    List (String × Nat) → List (Option String)
  | [] => []
  | (s, t) :: rest =>
    mails_of (set_status p a s t) ++
      mails_in_run p (state_after_set_status p a s t) rest

/-! ## Queryset scoping (`src/medical_lab/views.py`) -/

/-- Scoping `PatientViewSet.get_queryset`: administrators and moderators see
every patient, a regular user only the patients they created,
anonymous requests see nothing. -/
def patient_get_queryset (u : UserRec) (db : List PatientRec) :
    List PatientRec :=
  if !u.is_authenticated then []
  else if u.is_administrator then db
  else if u.is_moderator then db
  else if u.is_regular_user then db.filter (fun p => p.created_by == u.id)
  else []

/-- Scoping `AnalysisViewSet.get_queryset`: the regular-user branch filters by
`patient__created_by`, i.e. follows the foreign key to the owning
patient row. -/
def analysis_get_queryset (u : UserRec) (analyses : List AnalysisRec)
    (patients : List PatientRec) : List AnalysisRec :=
  if !u.is_authenticated then []
  else if u.is_administrator then analyses
  else if u.is_moderator then analyses
  else if u.is_regular_user then
    analyses.filter (fun a =>
      match patients.find? (fun p => p.id == a.patientId) with
      | some p => p.created_by == u.id
      | none => false)
  else []

/-! ## Permissions (`src/medical_lab/views.py`) -/

/-- Check `IsModerator.has_permission`. -/
def IsModerator_has (u : UserRec) : Bool :=
  u.is_authenticated && u.is_moderator

/-- Permissions of `PatientViewSet.get_permissions` for the `create` action:
`[IsModerator]` only. -/
def patient_create_allowed (u : UserRec) : Bool := IsModerator_has u

/-- Permission on the `set_status` action:
`permission_classes=[IsModerator]`. -/
def set_status_allowed (u : UserRec) : Bool := IsModerator_has u

/-- The HTML `create_patient` view's gate: authenticated, not a regular
user, and a moderator (views.py lines 405-416). -/
def create_patient_view_allowed (u : UserRec) : Bool :=
  u.is_authenticated && !u.is_regular_user && u.is_moderator

/-! ## Self-service patient provisioning (`src/medical_lab/views.py`) -/

/-- The `defaults` dict of `AnalysisViewSet.perform_create`'s
`get_or_create` call: each profile field falls back to its sentinel
when the account lacks it (Python `or` on a blank string / `None`). -/
def provisioned_defaults (u : UserRec) (freshId : Nat) : PatientRec :=
  { id := freshId
    last_name := if u.last_name = "" then "User" else u.last_name
    first_name := if u.first_name = "" then "Unknown" else u.first_name
    birth_date := u.birth_date.getD "2000-01-01"
    gender := if u.gender = "" then "O" else u.gender
    phone := none
    email := none
    created_by := u.id }

/-- Call `Patient.objects.get_or_create(created_by=user, defaults=...)`:
return the existing row for this account if there is one (DB
unchanged, `created = false`), otherwise insert a fresh row built from
the defaults (`created = true`). -/
def get_or_create_self_patient (u : UserRec) (db : List PatientRec)
    (freshId : Nat) : PatientRec × List PatientRec × Bool :=
  match db.find? (fun p => p.created_by == u.id) with
  | some p => (p, db, false)
  | none =>
    let p := provisioned_defaults u freshId
    (p, db ++ [p], true)

/-! ## Moderator patient-with-user creation (`src/users/forms.py`) -/

/-- Method `PatientWithUserForm.save`: after creating the new self-service
account, the patient row's `created_by` is `created_by or user` — the
caller-supplied account when given, else the new account itself. -/
def patient_with_user_form_save (data : PatientRec) (newUserId : Nat)
    (created_by : Option Nat) : PatientRec :=
  { data with created_by := created_by.getD newUserId }

/-- The moderator branch of the `create_patient` view: it calls
`form.save(created_by=request.user)`, appending the persisted patient
to the store. -/
def create_patient_moderator_flow (data : PatientRec)
    (newUserId modId : Nat) (db : List PatientRec) : List PatientRec :=
  db ++ [patient_with_user_form_save data newUserId (some modId)]

/-! ## Birth-date validation (`src/medical_lab/forms.py`, `models.py`)

Dates are represented by their proleptic ordinal day number (as
Python's `date.toordinal`): date comparison is ordinal comparison and
`(d1 - d2).days` is ordinal subtraction, which is all this code uses.
The check `(today - birth).days / 365.25 > 150` is equivalent over
integers to `(today - birth) * 4 > 219150` since
`150 * 365.25 * 4 = 219150`. -/

/-- Validator `PatientForm.clean_birth_date`: reject a future birth date, then
reject an implied age above 150 years. -/
def clean_birth_date (today birth : Nat) : Except String Nat :=
  if today < birth then .error "Дата рождения не может быть в будущем"
  else if (today - birth) * 4 > 219150 then
    .error "Проверьте правильность даты рождения"
  else .ok birth

/-- Method `Patient.save` (models.py): raises `ValueError` on a future birth
date, otherwise persists. -/
def Patient_model_save_check (today birth : Nat) : Except String Unit :=
  if today < birth then .error "ValueError" else .ok ()

/-- Outcome of an attempt to persist a patient: a validation error
reported to the caller, an unhandled (fatal) exception, or a persisted
record. -/
inductive SaveOutcome where
  | validationError (msg : String)
  | fatal (msg : String)
  | persisted (birth : Nat)
deriving Repr, DecidableEq

/-- The create/update path that goes through `PatientForm`
(`edit_patient`, and the non-moderator branch of `create_patient`):
form validation first, then the model-level save check. -/
def patient_form_flow (today birth : Nat) : SaveOutcome :=
  match clean_birth_date today birth with
  | .error m => .validationError m
  | .ok b =>
    match Patient_model_save_check today b with
    | .error m => .fatal m
    | .ok _ => .persisted b

/-- The moderator create path through `PatientWithUserForm`: that form
declares no `clean_birth_date`, so the only birth-date check left is
the model-level `ValueError` (the other form fields are assumed
valid — they do not involve the birth date). -/
def patient_with_user_form_flow (today birth : Nat) : SaveOutcome :=
  match Patient_model_save_check today birth with
  | .error m => .fatal m
  | .ok _ => .persisted birth

/-! ## Calendar dates and `Patient.age` (`src/medical_lab/models.py`)

`Patient.age` constructs `date(today.year, birth.month, birth.day)`,
so it needs a calendar model: year/month/day triples with the
Gregorian month lengths, and Python's lexicographic date ordering. -/

/-- Gregorian leap-year rule. -/
def isLeapYear (y : Nat) : Bool :=
  (y % 4 == 0 && y % 100 != 0) || y % 400 == 0

/-- Number of days in month `m` of year `y`. -/
def daysInMonth (y m : Nat) : Nat :=
  if m = 2 then (if isLeapYear y then 29 else 28)
  else if m = 4 ∨ m = 6 ∨ m = 9 ∨ m = 11 then 30
  else 31

/-- A calendar date. -/
structure Date where
  year : Nat
  month : Nat
  day : Nat
deriving Repr, DecidableEq

/-- The triple denotes an actual calendar date. -/
def Date.valid (d : Date) : Prop :=
  1 ≤ d.month ∧ d.month ≤ 12 ∧ 1 ≤ d.day ∧ d.day ≤ daysInMonth d.year d.month

instance (d : Date) : Decidable d.valid := by
  unfold Date.valid; infer_instance

/-- Python's `date(y, m, d)` constructor: `none` models the
`ValueError` raised on an invalid triple. -/
def mkDate (y m d : Nat) : Option Date :=
  if (Date.mk y m d).valid then some ⟨y, m, d⟩ else none

/-- Python's `<` on dates (lexicographic). -/
def Date.lt (a b : Date) : Prop :=
  a.year < b.year ∨ (a.year = b.year ∧
    (a.month < b.month ∨ (a.month = b.month ∧ a.day < b.day)))

instance (a b : Date) : Decidable (Date.lt a b) := by
  unfold Date.lt; infer_instance

/-- Python's `<=` on dates. -/
def Date.le (a b : Date) : Prop := Date.lt a b ∨ a = b

instance (a b : Date) : Decidable (Date.le a b) := by
  unfold Date.le; infer_instance

/-- Property `Patient.age`: `today.year - birth.year`, minus one if today is
before this year's anniversary `date(today.year, birth.month,
birth.day)` — whose construction can itself raise (`none`). -/
def patient_age (birth today : Date) : Option Int :=
  match mkDate today.year birth.month birth.day with
  | none => none
  | some birthday =>
    some ((today.year : Int) - (birth.year : Int) -
      (if Date.lt today birthday then 1 else 0))

/-! ## Concrete records used by the closed theorems below -/

/-- A concrete patient row with an email on file. -/
def p0 : PatientRec :=
  { id := 1, last_name := "Ivanov", first_name := "Petr"
    birth_date := "1990-01-01", gender := "M", phone := none
    email := some "patient@test.ru", created_by := 7 }

/-- A concrete authenticated superuser account that belongs to no
group: an administrator that is not a moderator. -/
def adminOnly : UserRec :=
  { id := 3, is_authenticated := true, is_superuser := true
    groups := [], last_name := "Root", first_name := "Admin"
    birth_date := none, gender := "M", phone := none
    email := some "root@test.ru" }

/-- A concrete authenticated regular account (no flags, no groups)
with every profile field missing. -/
def regular7 : UserRec :=
  { id := 7, is_authenticated := true, is_superuser := false
    groups := ["users"], last_name := "", first_name := ""
    birth_date := none, gender := "", phone := none
    email := some "p@test.ru" }

/-! ## Lifecycle step lemmas -/

theorem analysis_full_save_status (p : PatientRec) (dbOld : Option AnalysisRec)
    (inst : AnalysisRec) (now : Nat) :
    ((analysis_full_save p dbOld inst now).1).status = inst.status := by
  cases dbOld with
  | none =>
    simp only [analysis_full_save, Analysis_model_save]
    split <;> rfl
  | some old =>
    simp only [analysis_full_save]
    split
    · simp only [Analysis_model_save]
      split <;> split <;> rfl
    · simp only [Analysis_model_save]
      split <;> rfl

theorem analysis_full_save_keeps_date (p : PatientRec)
    (dbOld : Option AnalysisRec) (inst : AnalysisRec) (now t : Nat)
    (h : inst.completion_date = some t) :
    ((analysis_full_save p dbOld inst now).1).completion_date = some t := by
  cases dbOld with
  | none => simp [analysis_full_save, Analysis_model_save, h]
  | some old =>
    simp only [analysis_full_save]
    split
    · simp [h, Analysis_model_save]
    · simp [Analysis_model_save, h]

theorem set_status_invalid (p : PatientRec) (a : AnalysisRec) (s : String)
    (now : Nat) (h : s ∉ STATUS_CHOICES) :
    set_status p a s now = .error "Неверный статус" := by
  simp [set_status, h]

theorem set_status_valid (p : PatientRec) (a : AnalysisRec) (s : String)
    (now : Nat) (h : s ∈ STATUS_CHOICES) :
    set_status p a s now =
      .ok (analysis_full_save p (some a) { a with status := s } now).1
        (analysis_full_save p (some a) { a with status := s } now).2 := by
  simp [set_status, h]

theorem state_after_keeps_date (p : PatientRec) (a : AnalysisRec) (s : String)
    (now t : Nat) (h : a.completion_date = some t) :
    (state_after_set_status p a s now).completion_date = some t := by
  unfold state_after_set_status
  by_cases hmem : s ∈ STATUS_CHOICES
  · rw [set_status_valid p a s now hmem]
    exact analysis_full_save_keeps_date p (some a) _ now t h
  · rw [set_status_invalid p a s now hmem]
    exact h

theorem run_keeps_completion_date (p : PatientRec) (cmds : List (String × Nat)) :
    ∀ (a : AnalysisRec) (t : Nat), a.completion_date = some t →
      (run_set_status p a cmds).completion_date = some t := by
  induction cmds with
  | nil => intro a t h; exact h
  | cons c rest ih =>
    intro a t h
    obtain ⟨s, u⟩ := c
    simp only [run_set_status]
    exact ih _ t (state_after_keeps_date p a s u t h)

theorem state_after_to_completed (p : PatientRec) (a : AnalysisRec) (now : Nat)
    (h : a.status ≠ "completed") (hd : a.completion_date = none) :
    state_after_set_status p a "completed" now =
      { a with status := "completed", completion_date := some now } := by
  unfold state_after_set_status
  rw [set_status_valid p a "completed" now (by decide)]
  simp [analysis_full_save, h, hd, Analysis_model_save]

theorem state_after_other (p : PatientRec) (a : AnalysisRec) (s : String)
    (now : Nat) (hmem : s ∈ STATUS_CHOICES) (hs : s ≠ "completed") :
    state_after_set_status p a s now = { a with status := s } := by
  unfold state_after_set_status
  rw [set_status_valid p a s now hmem]
  simp [analysis_full_save, hs, Analysis_model_save]

theorem state_after_invalid (p : PatientRec) (a : AnalysisRec) (s : String)
    (now : Nat) (hmem : s ∉ STATUS_CHOICES) :
    state_after_set_status p a s now = a := by
  unfold state_after_set_status
  rw [set_status_invalid p a s now hmem]

theorem run_completion_date_eq_first (p : PatientRec)
    (cmds : List (String × Nat)) :
    ∀ a : AnalysisRec, a.completion_date = none → a.status ≠ "completed" →
      (run_set_status p a cmds).completion_date =
        ((cmds.find? fun c => c.1 == "completed").map Prod.snd) := by
  induction cmds with
  | nil => intro a h1 h2; simpa [run_set_status] using h1
  | cons c rest ih =>
    obtain ⟨s, u⟩ := c
    intro a h1 h2
    simp only [run_set_status]
    by_cases hs : s = "completed"
    · subst hs
      rw [state_after_to_completed p a u h2 h1]
      rw [run_keeps_completion_date p rest _ u rfl]
      simp [List.find?]
    · by_cases hmem : s ∈ STATUS_CHOICES
      · rw [state_after_other p a s u hmem hs]
        rw [ih { a with status := s } h1 hs]
        have hbeq : (s == "completed") = false := by simp [hs]
        simp [List.find?, hbeq]
      · rw [state_after_invalid p a s u hmem]
        rw [ih a h1 h2]
        have hbeq : (s == "completed") = false := by simp [hs]
        simp [List.find?, hbeq]

/-! ## Claim theorems: analysis lifecycle -/

/-- C1: for every Analysis (created in its default `registered` state
with a null completion date) and every sequence of `set_status` calls,
`completion_date` is null until the first call that transitions into
`completed`, is stamped with that call's timestamp, and is never
changed afterwards; moreover no save path ever clears or overwrites an
already-set completion date. -/
theorem C1_completion_date_set_once :
    (∀ (p : PatientRec) (aid pid : Nat) (cmds : List (String × Nat)),
      (run_set_status p (AnalysisRec.new aid pid) cmds).completion_date =
        ((cmds.find? fun c => c.1 == "completed").map Prod.snd))
    ∧ (∀ (p : PatientRec) (dbOld : Option AnalysisRec) (inst : AnalysisRec)
        (now t : Nat),
      ((analysis_full_save p dbOld
          { inst with completion_date := some t } now).1).completion_date
        = some t) := by
  constructor
  · intro p aid pid cmds
    exact run_completion_date_eq_first p cmds _ rfl
      (by show ("registered" : String) ≠ "completed"; decide)
  · intro p dbOld inst now t
    exact analysis_full_save_keeps_date p dbOld _ now t rfl

/-- C2 counterexample: moving an analysis `completed → registered →
completed` emits the completion notification twice, so it does not
fire at most once over the lifetime of the Analysis — the email in
`handle_analysis_status_change` is not guarded by `completion_date`. -/
theorem C2_counterexample_notification_refires :
    (mails_in_run p0 (AnalysisRec.new 1 1)
      [("completed", 5), ("registered", 6), ("completed", 7)]).length = 2 := by
  decide

/-- C2 (amended): on any `set_status` transition whose target is
`completed` and whose prior state was not `completed`, exactly one
completion notification addressed to the Patient's contact email is
emitted — regardless of whether `completion_date` is already set — and
a repeated `completed` call on an already-completed Analysis emits no
notification. -/
theorem C2_amended_completion_notification :
    (∀ (p : PatientRec) (a : AnalysisRec) (now : Nat),
      a.status ≠ "completed" →
      mails_of (set_status p a "completed" now) = [p.email])
    ∧ (∀ (p : PatientRec) (a : AnalysisRec) (now : Nat),
      a.status = "completed" →
      mails_of (set_status p a "completed" now) = []) := by
  constructor
  · intro p a now h
    rw [set_status_valid p a "completed" now (by decide)]
    simp [mails_of, analysis_full_save, h, send_completion_email]
  · intro p a now h
    rw [set_status_valid p a "completed" now (by decide)]
    simp [mails_of, analysis_full_save, h]

/-- C2 witness: the amended theorem at a fresh analysis and at an
already-completed one. -/
theorem C2_amended_completion_notification_witness :
    mails_of (set_status p0 (AnalysisRec.new 1 1) "completed" 5) = [p0.email]
    ∧ mails_of (set_status p0
        { AnalysisRec.new 1 1 with status := "completed" } "completed" 6)
      = [] :=
  ⟨C2_amended_completion_notification.1 p0 (AnalysisRec.new 1 1) 5 (by decide),
   C2_amended_completion_notification.2 p0
     { AnalysisRec.new 1 1 with status := "completed" } 6 rfl⟩

/-- C3 counterexample: an Analysis in the terminal state `completed`
still accepts a further `set_status` call — the status is changed to
`in_progress`, neither left unchanged nor rejected. -/
theorem C3_counterexample_terminal_not_enforced :
    (run_set_status p0 (AnalysisRec.new 1 1) [("completed", 5)]).status
      = "completed"
    ∧ (state_after_set_status p0
        (run_set_status p0 (AnalysisRec.new 1 1) [("completed", 5)])
        "in_progress" 6).status = "in_progress" := by
  decide

/-- C3 (amended): `set_status` enforces no terminal states — from any
current status, including `completed` and `cancelled`, any requested
status within the defined set is accepted and becomes the stored
status; only a status outside the set is rejected. -/
theorem C3_amended_no_terminal_enforcement :
    ∀ (p : PatientRec) (a : AnalysisRec) (s : String) (now : Nat),
      s ∈ STATUS_CHOICES →
      ∃ a2 mails, set_status p a s now = .ok a2 mails ∧ a2.status = s := by
  intro p a s now hmem
  refine ⟨(analysis_full_save p (some a) { a with status := s } now).1,
          (analysis_full_save p (some a) { a with status := s } now).2,
          set_status_valid p a s now hmem, ?_⟩
  exact analysis_full_save_status p (some a) { a with status := s } now

/-- C3 witness: a cancelled Analysis accepts `registered`. -/
theorem C3_amended_no_terminal_enforcement_witness :
    ∃ a2 mails,
      set_status p0 { AnalysisRec.new 1 1 with status := "cancelled" }
        "registered" 9 = .ok a2 mails ∧ a2.status = "registered" :=
  C3_amended_no_terminal_enforcement p0
    { AnalysisRec.new 1 1 with status := "cancelled" } "registered" 9 (by decide)

/-- C4: a requested status outside the defined enumeration is reported
as an error to the caller and leaves the Analysis row entirely
unchanged. -/
theorem C4_invalid_status_rejected :
    ∀ (p : PatientRec) (a : AnalysisRec) (s : String) (now : Nat),
      s ∉ STATUS_CHOICES →
      set_status p a s now = .error "Неверный статус"
      ∧ state_after_set_status p a s now = a := by
  intro p a s now h
  exact ⟨set_status_invalid p a s now h, state_after_invalid p a s now h⟩

/-- C4 witness: the spec's scenario `setAnalysisStatus(id,
"unknown_status")`. -/
theorem C4_invalid_status_rejected_witness :
    set_status p0 (AnalysisRec.new 1 1) "unknown_status" 5
      = .error "Неверный статус"
    ∧ state_after_set_status p0 (AnalysisRec.new 1 1) "unknown_status" 5
      = AnalysisRec.new 1 1 :=
  C4_invalid_status_rejected p0 (AnalysisRec.new 1 1) "unknown_status" 5
    (by decide)

/-! ## Claim theorems: scoping, permissions, provisioning -/

theorem regular_user_flags (u : UserRec) (h : u.is_regular_user = true) :
    u.is_administrator = false ∧ u.is_moderator = false := by
  unfold UserRec.is_regular_user at h
  simpa using h

/-- C5: a self-service (regular-user) actor's patient queryset only
contains patients the actor created, and its analysis queryset only
contains analyses whose owning patient row was created by the actor. -/
theorem C5_regular_user_list_scoping :
    (∀ (u : UserRec) (db : List PatientRec) (pt : PatientRec),
      u.is_regular_user = true → pt ∈ patient_get_queryset u db →
      pt.created_by = u.id)
    ∧ (∀ (u : UserRec) (anas : List AnalysisRec) (pats : List PatientRec)
        (a : AnalysisRec),
      u.is_regular_user = true → a ∈ analysis_get_queryset u anas pats →
      ∃ pt ∈ pats, pt.id = a.patientId ∧ pt.created_by = u.id) := by
  constructor
  · intro u db pt hreg hmem
    obtain ⟨hadm, hmod⟩ := regular_user_flags u hreg
    unfold patient_get_queryset at hmem
    cases hauth : u.is_authenticated with
    | false => simp [hauth] at hmem
    | true =>
      rw [hauth, hadm, hmod, hreg] at hmem
      simp only [Bool.not_true, if_false, if_true] at hmem
      have := (List.mem_filter.mp hmem).2
      simpa using this
  · intro u anas pats a hreg hmem
    obtain ⟨hadm, hmod⟩ := regular_user_flags u hreg
    unfold analysis_get_queryset at hmem
    cases hauth : u.is_authenticated with
    | false => simp [hauth] at hmem
    | true =>
      rw [hauth, hadm, hmod, hreg] at hmem
      simp only [Bool.not_true, if_false, if_true] at hmem
      have hpred := (List.mem_filter.mp hmem).2
      cases hf : pats.find? (fun p => p.id == a.patientId) with
      | none => rw [hf] at hpred; simp at hpred
      | some pt =>
        rw [hf] at hpred
        refine ⟨pt, List.mem_of_find?_eq_some hf, ?_, ?_⟩
        · have := List.find?_some hf
          simpa using this
        · simpa using hpred

/-- C5 witness: a concrete regular user, with one own and one foreign
patient row, and one own and one foreign analysis row. -/
theorem C5_regular_user_list_scoping_witness :
    p0.created_by = regular7.id
    ∧ ∃ pt ∈ [p0, { p0 with id := 2, created_by := 9 }],
        pt.id = (AnalysisRec.new 1 1).patientId ∧ pt.created_by = regular7.id :=
  ⟨C5_regular_user_list_scoping.1 regular7
      [p0, { p0 with id := 2, created_by := 9 }] p0 (by decide) (by decide),
   C5_regular_user_list_scoping.2 regular7
      [AnalysisRec.new 1 1, AnalysisRec.new 2 2]
      [p0, { p0 with id := 2, created_by := 9 }]
      (AnalysisRec.new 1 1) (by decide) (by decide)⟩

/-- C6 counterexample: an authenticated superuser outside every group
is an Administrator but not a moderator, and is denied both the
patient `create` action and the `set_status` action (and the HTML
create-patient view). -/
theorem C6_counterexample_admin_denied :
    adminOnly.is_administrator = true
    ∧ adminOnly.is_moderator = false
    ∧ patient_create_allowed adminOnly = false
    ∧ set_status_allowed adminOnly = false
    ∧ create_patient_view_allowed adminOnly = false := by
  decide

/-- C6 (amended): both `createPatient` and `setAnalysisStatus` require
the `moderators` membership: they are allowed exactly for
authenticated moderators, so an Administrator is allowed only when
also a moderator. -/
theorem C6_amended_moderator_membership_required :
    ∀ u : UserRec,
      (patient_create_allowed u = true ↔
        u.is_authenticated = true ∧ u.is_moderator = true)
      ∧ (set_status_allowed u = true ↔
        u.is_authenticated = true ∧ u.is_moderator = true) := by
  intro u
  constructor <;>
    simp [patient_create_allowed, set_status_allowed, IsModerator_has,
      Bool.and_eq_true]

/-- C7: for a self-service account with no linked patient, the
`get_or_create` provisioning step links exactly one patient row via
`created_by`, filling each missing profile field with its sentinel
default; for an already-provisioned account it returns the existing
row and leaves the store unchanged. -/
theorem C7_self_provisioning_idempotent :
    (∀ (u : UserRec) (db : List PatientRec) (fid : Nat),
      db.find? (fun p => p.created_by == u.id) = none →
      (get_or_create_self_patient u db fid).1.created_by = u.id
      ∧ (get_or_create_self_patient u db fid).2.2 = true
      ∧ ((get_or_create_self_patient u db fid).2.1.filter
          (fun p => p.created_by == u.id))
        = [(get_or_create_self_patient u db fid).1]
      ∧ (u.last_name = "" →
          (get_or_create_self_patient u db fid).1.last_name = "User")
      ∧ (u.first_name = "" →
          (get_or_create_self_patient u db fid).1.first_name = "Unknown")
      ∧ (u.birth_date = none →
          (get_or_create_self_patient u db fid).1.birth_date = "2000-01-01")
      ∧ (u.gender = "" →
          (get_or_create_self_patient u db fid).1.gender = "O"))
    ∧ (∀ (u : UserRec) (db : List PatientRec) (fid : Nat) (p : PatientRec),
      db.find? (fun p => p.created_by == u.id) = some p →
      get_or_create_self_patient u db fid = (p, db, false)) := by
  constructor
  · intro u db fid hnone
    have hget : get_or_create_self_patient u db fid =
        (provisioned_defaults u fid,
          db ++ [provisioned_defaults u fid], true) := by
      unfold get_or_create_self_patient
      rw [hnone]
    rw [hget]
    have hfilter : db.filter (fun p => p.created_by == u.id) = [] := by
      rw [List.filter_eq_nil_iff]
      intro p hp
      exact List.find?_eq_none.mp hnone p hp
    refine ⟨rfl, rfl, ?_, ?_, ?_, ?_, ?_⟩
    · rw [List.filter_append, hfilter]
      simp [provisioned_defaults]
    · intro h; simp [provisioned_defaults, h]
    · intro h; simp [provisioned_defaults, h]
    · intro h; simp [provisioned_defaults, h]
    · intro h; simp [provisioned_defaults, h]
  · intro u db fid p hsome
    unfold get_or_create_self_patient
    rw [hsome]

/-- C7 witness: the account `regular7` (all profile fields missing)
against an empty store, and an already-provisioned account against a
store holding its row. -/
theorem C7_self_provisioning_idempotent_witness :
    ((get_or_create_self_patient regular7 [] 100).1.created_by = regular7.id
      ∧ (get_or_create_self_patient regular7 [] 100).2.2 = true
      ∧ ((get_or_create_self_patient regular7 [] 100).2.1.filter
          (fun p => p.created_by == regular7.id))
        = [(get_or_create_self_patient regular7 [] 100).1]
      ∧ (regular7.last_name = "" →
          (get_or_create_self_patient regular7 [] 100).1.last_name = "User")
      ∧ (regular7.first_name = "" →
          (get_or_create_self_patient regular7 [] 100).1.first_name
            = "Unknown")
      ∧ (regular7.birth_date = none →
          (get_or_create_self_patient regular7 [] 100).1.birth_date
            = "2000-01-01")
      ∧ (regular7.gender = "" →
          (get_or_create_self_patient regular7 [] 100).1.gender = "O"))
    ∧ get_or_create_self_patient regular7 [p0] 101 = (p0, [p0], false) :=
  ⟨C7_self_provisioning_idempotent.1 regular7 [] 100 rfl,
   C7_self_provisioning_idempotent.2 regular7 [p0] 101 p0 (by decide)⟩

/-- C9: the moderator patient-with-user flow persists the patient with
`created_by` set to the acting moderator, so the freshly created
account owns no patient row and its first self-service provisioning
call creates a separate one. -/
theorem C9_moderator_flow_ownership :
    ∀ (data : PatientRec) (uNew : UserRec) (modId fid : Nat)
      (db : List PatientRec),
      modId ≠ uNew.id →
      (∀ q ∈ db, q.created_by ≠ uNew.id) →
      (patient_with_user_form_save data uNew.id (some modId)).created_by
        = modId
      ∧ (create_patient_moderator_flow data uNew.id modId db).find?
          (fun q => q.created_by == uNew.id) = none
      ∧ (get_or_create_self_patient uNew
          (create_patient_moderator_flow data uNew.id modId db) fid).2.2
        = true := by
  intro data uNew modId fid db hmod hdb
  have hfind : (create_patient_moderator_flow data uNew.id modId db).find?
      (fun q => q.created_by == uNew.id) = none := by
    rw [List.find?_eq_none]
    intro q hq
    unfold create_patient_moderator_flow at hq
    rcases List.mem_append.mp hq with hq | hq
    · simpa using hdb q hq
    · rcases List.mem_singleton.mp hq with rfl
      simpa [patient_with_user_form_save] using hmod
  refine ⟨rfl, hfind, ?_⟩
  unfold get_or_create_self_patient
  rw [hfind]

/-- C9 witness: moderator 3 creates a patient-with-user for the new
account `regular7` against an empty store. -/
theorem C9_moderator_flow_ownership_witness :
    (patient_with_user_form_save p0 regular7.id (some 3)).created_by = 3
    ∧ (create_patient_moderator_flow p0 regular7.id 3 []).find?
        (fun q => q.created_by == regular7.id) = none
    ∧ (get_or_create_self_patient regular7
        (create_patient_moderator_flow p0 regular7.id 3 []) 100).2.2
      = true :=
  C9_moderator_flow_ownership p0 regular7 3 100 [] (by decide)
    (by intro q hq; simp at hq)

/-! ## Claim theorems: birth-date validation and age -/

/-- C8 counterexample: through the moderator patient-with-user create
flow, a birth date 60000 days before today — an implied age above 150
years, as the form's own `> 150` test would measure it — is persisted,
not rejected as a validation error. -/
theorem C8_counterexample_age_over_150_persisted :
    patient_with_user_form_flow 739000 679000 = .persisted 679000
    ∧ (739000 - 679000) * 4 > 219150 := by
  decide

/-- C8 (amended): the `PatientForm` path (patient edit, and the
non-moderator create branch) rejects a future birth date or an implied
age above 150 years as a reported validation error, persisting
nothing; but the moderator patient-with-user path performs no
birth-date validation — any non-future birth date is persisted
regardless of implied age, and a future one fails only with the
model-level `ValueError`, a fatal error rather than a reported
validation error. -/
theorem C8_amended_birth_date_validation :
    (∀ today birth : Nat,
      today < birth ∨ (today - birth) * 4 > 219150 →
      ∃ m, patient_form_flow today birth = .validationError m)
    ∧ (∀ today birth : Nat, ¬ today < birth →
      patient_with_user_form_flow today birth = .persisted birth)
    ∧ (∀ today birth : Nat, today < birth →
      patient_with_user_form_flow today birth = .fatal "ValueError") := by
  refine ⟨?_, ?_, ?_⟩
  · intro today birth h
    by_cases hf : today < birth
    · exact ⟨"Дата рождения не может быть в будущем",
        by simp [patient_form_flow, clean_birth_date, hf]⟩
    · have hage : (today - birth) * 4 > 219150 := h.resolve_left hf
      exact ⟨"Проверьте правильность даты рождения",
        by simp [patient_form_flow, clean_birth_date, hf, hage]⟩
  · intro today birth h
    simp [patient_with_user_form_flow, Patient_model_save_check, h]
  · intro today birth h
    simp [patient_with_user_form_flow, Patient_model_save_check, h]

/-- C8 witness: the amended theorem at a future birth date and at an
over-150-years one on the form path, and both branches of the
moderator path. -/
theorem C8_amended_birth_date_validation_witness :
    (∃ m, patient_form_flow 739000 739001 = .validationError m)
    ∧ (∃ m, patient_form_flow 739000 679000 = .validationError m)
    ∧ patient_with_user_form_flow 739000 679000 = .persisted 679000
    ∧ patient_with_user_form_flow 739000 739001 = .fatal "ValueError" :=
  ⟨C8_amended_birth_date_validation.1 739000 739001 (by decide),
   C8_amended_birth_date_validation.1 739000 679000 (by decide),
   C8_amended_birth_date_validation.2.1 739000 679000 (by decide),
   C8_amended_birth_date_validation.2.2 739000 739001 (by decide)⟩

theorem daysInMonth_feb (y : Nat) :
    daysInMonth y 2 = if isLeapYear y then 29 else 28 := by
  simp [daysInMonth]

theorem daysInMonth_not_feb (y y' m : Nat) (h : m ≠ 2) :
    daysInMonth y m = daysInMonth y' m := by
  simp [daysInMonth, h]

/-- C10 counterexample: a patient born 2000-02-29 (a valid date, on or
before the current date) has no computable age on 2023-03-01 — the
code's `date(today.year, birth.month, birth.day)` raises because 2023
is not a leap year. -/
theorem C10_counterexample_feb29_age_fails :
    (Date.mk 2000 2 29).valid ∧ (Date.mk 2023 3 1).valid
    ∧ Date.le ⟨2000, 2, 29⟩ ⟨2023, 3, 1⟩
    ∧ patient_age ⟨2000, 2, 29⟩ ⟨2023, 3, 1⟩ = none := by
  decide

/-- C10 (amended): for a valid stored birth date on or before a valid
current date, the age computation returns a non-negative value
whenever the birth date's month/day pair exists in the current year —
that is, except for a February 29 birth date in a non-leap current
year, where it fails. -/
theorem C10_amended_age_total_nonneg :
    ∀ birth today : Date, birth.valid → today.valid → Date.le birth today →
      (birth.month = 2 → birth.day = 29 → isLeapYear today.year = true) →
      ∃ n : Int, patient_age birth today = some n ∧ 0 ≤ n := by
  intro birth today hb ht hle hleap
  obtain ⟨hm1, hm2, hd1, hd2⟩ := hb
  have hvalid : (Date.mk today.year birth.month birth.day).valid := by
    refine ⟨hm1, hm2, hd1, ?_⟩
    show birth.day ≤ daysInMonth today.year birth.month
    by_cases hm : birth.month = 2
    · rw [hm] at hd2 ⊢
      rw [daysInMonth_feb] at hd2 ⊢
      by_cases hd : birth.day = 29
      · rw [hleap hm hd]
        simp [hd]
      · split at hd2 <;> split <;> omega
    · rw [daysInMonth_not_feb today.year birth.year birth.month hm]
      exact hd2
  unfold patient_age mkDate
  rw [if_pos hvalid]
  refine ⟨_, rfl, ?_⟩
  by_cases hlt : Date.lt today ⟨today.year, birth.month, birth.day⟩
  · rw [if_pos hlt]
    have hy : birth.year < today.year := by
      unfold Date.lt at hlt
      simp only at hlt
      rcases hle with hlt2 | heq
      · unfold Date.lt at hlt2
        omega
      · cases heq
        omega
    omega
  · rw [if_neg hlt]
    have hy : birth.year ≤ today.year := by
      rcases hle with hlt2 | heq
      · unfold Date.lt at hlt2
        omega
      · cases heq
        omega
    omega

/-- C10 witness: the amended theorem at a non-leap-day birth date. -/
theorem C10_amended_age_total_nonneg_witness :
    ∃ n : Int, patient_age ⟨1990, 6, 15⟩ ⟨2026, 10, 12⟩ = some n ∧ 0 ≤ n :=
  C10_amended_age_total_nonneg ⟨1990, 6, 15⟩ ⟨2026, 10, 12⟩ (by decide)
    (by decide) (by decide) (by intro h; simp at h)

end MedLab
